import Mathlib

/-!
Verification development for the data-quality analyzer
(`app/analizador.py`, class `AnalizadorCalidadDatos`).

The Python code is shallowly embedded: pandas DataFrames become `Hoja`
(a row count plus a list of named columns of `Valor` cells), floats become
`ℚ`, and `pd.to_datetime` is an explicit parameter `pdtd : String → Option ℚ`
(`some t` = parse succeeds yielding a timestamp in days, `none` = parse
fails).  The wall clock (`pd.Timestamp.now()`) is an explicit parameter
`ahora : ℚ` in days.  Python string predicates (`isdigit`, `isupper`,
`islower`) are embedded for ASCII text, which covers all inputs used here.
Presentation-only fields (the `descripcion` f-strings, plotly figures) are
omitted; every numeric field, severity, example list and control-flow
branch of the analysis functions is kept.
-/

namespace AsistenteCalidad

/-- A spreadsheet cell: null (`NaN`), a string, or a number. -/
inductive Valor
  | nulo
  | texto (s : String)
  | numero (n : Int)
  deriving DecidableEq

/-- A named column of cells (a pandas Series with its name). -/
structure Columna where
  nombre : String
  valores : List Valor
  deriving DecidableEq

/-- A sheet: the row count (`len(df)`) and the columns. -/
structure Hoja where
  nfilas : Nat
  columnas : List Columna
  deriving DecidableEq

/-- Well-formedness: every column has exactly `nfilas` cells. -/
def Hoja.wf (h : Hoja) : Prop := ∀ c ∈ h.columnas, c.valores.length = h.nfilas

instance (h : Hoja) : Decidable h.wf := by
  unfold Hoja.wf; infer_instance

/-- `pd.isna` on a cell. -/
def esNulo : Valor → Bool
  | .nulo => true
  | _ => false

/-- Python `str(valor)` on a cell (only ever applied to non-null cells). -/
def valorStr : Valor → String
  | .nulo => "nan"
  | .texto s => s
  | .numero n => toString n

/-- `series.dropna()`. -/
def noNulos (vs : List Valor) : List Valor := vs.filter (fun v => !esNulo v)

/-- Python substring test `sub in s`. -/
def esSubcadena (sub s : String) : Bool :=
  s.toList.tails.any (fun t => sub.toList.isPrefixOf t)

/-- `df[col].dtype == 'object'`: the column holds at least one string. -/
def esObjeto (c : Columna) : Bool :=
  c.valores.any (fun v => match v with | .texto _ => true | _ => false)

/-- Python `s.isdigit()` for ASCII strings. -/
def pyIsDigit (s : String) : Bool := !s.isEmpty && s.toList.all Char.isDigit

/-- Python `s.isupper()` for ASCII strings: some cased character and
every cased character upper-case. -/
def pyIsUpper (s : String) : Bool :=
  s.toList.any Char.isAlpha && s.toList.all (fun c => !c.isAlpha || c.isUpper)

/-- Python `s.islower()` for ASCII strings. -/
def pyIsLower (s : String) : Bool :=
  s.toList.any Char.isAlpha && s.toList.all (fun c => !c.isAlpha || c.isLower)

/-- Characters admitted by `[a-zA-Z0-9._%+-]` (the local part of the
email regex at `analizador.py:217`). -/
def charEnLocal (c : Char) : Bool :=
  c.isAlphanum || c = '.' || c = '_' || c = '%' || c = '+' || c = '-'

/-- Characters admitted by `[a-zA-Z0-9.-]` (the domain of the email regex). -/
def charEnDominio (c : Char) : Bool :=
  c.isAlphanum || c = '.' || c = '-'

/-- The domain side of the regex: `[a-zA-Z0-9.-]+\.[a-zA-Z]{2,}` matched
against the whole string.  Because the top-level-domain piece admits no
dot, it is exactly the text after the last dot. -/
def dominioValido (d : String) : Bool :=
  let partes := d.splitOn "."
  match partes.getLast? with
  | none => false
  | some tld =>
      d.toList.all charEnDominio &&
      2 ≤ partes.length &&
      2 ≤ tld.length && tld.toList.all Char.isAlpha &&
      (3 ≤ partes.length || partes.head? ≠ some "")

/-- Full match of `^[a-zA-Z0-9._%+-]+@[a-zA-Z0-9.-]+\.[a-zA-Z]{2,}$`
(`analizador.py:217` and `analizador.py:587`).  Neither character class
admits `@`, so a match forces exactly one `@` in the string. -/
def esEmailValido (s : String) : Bool :=
  match s.splitOn "@" with
  | [l, d] => !l.isEmpty && l.toList.all charEnLocal && dominioValido d
  | _ => false

/-- The quadruple of per-sheet quality metrics. -/
structure Metricas where
  completitud : ℚ
  exactitud : ℚ
  unicidad : ℚ
  consistencia : ℚ
  deriving DecidableEq

/-- Cell classification used by the completeness metric
(`analizador.py:151-159`): null, or a string that strips to the empty
string, `??`, or a case-insensitive textual null. -/
def celdaProblematica (v : Valor) : Bool :=
  match v with
  | .nulo => true
  | .texto s =>
      let t := s.trim
      t = "" || t = "??" ||
        (t.toLower = "n/a" || t.toLower = "na" || t.toLower = "null" || t.toLower = "none")
  | .numero _ => false

/-- Completeness of a sheet (`analizador.py:144-161`). -/
def completitudHoja (h : Hoja) : ℚ :=
  let total : ℚ := (h.nfilas : ℚ) * (h.columnas.length : ℚ)
  let prob : ℚ := ((h.columnas.map (fun c => (c.valores.filter celdaProblematica).length)).sum : ℚ)
  if 0 < total then max 0 ((total - prob) / total * 100) else 100

/-- Per-column accuracy score (`analizador.py:166-243`): start at 100,
apply the name-dispatched deductions, then the generic text deductions,
floor at 0.  A column with no non-null value scores 100. -/
def colScoreExactitud (pdtd : String → Option ℚ) (c : Columna) : ℚ :=
  let nn := noNulos c.valores
  if nn.isEmpty then 100 else
  let nombre := c.nombre.toLower
  let base : ℚ :=
    if esSubcadena "fecha" nombre then
      nn.foldl (fun acc v =>
        let vs := (valorStr v).trim
        if vs.toLower = "hoy" then acc - 20
        else if (pdtd vs).isSome then acc else acc - 15) 100
    else if esSubcadena "codigo" nombre || esSubcadena "id_" nombre then
      nn.foldl (fun acc v =>
        let vs := (valorStr v).trim
        if vs = "" || vs = "??" then acc - 25 else acc) 100
    else if esSubcadena "telefono" nombre || esSubcadena "celular" nombre then
      nn.foldl (fun acc v =>
        let vs := (valorStr v).trim
        if 12 < vs.length || vs.length < 7 then acc - 20
        else if !pyIsDigit vs then acc - 15 else acc) 100
    else if esSubcadena "genero" nombre then
      nn.foldl (fun acc v =>
        let vs := ((valorStr v).trim).toLower
        if vs ≠ "masculino" && vs ≠ "femenino" && vs ≠ "otro" && vs ≠ "??" then acc - 30
        else if vs = "??" then acc - 40 else acc) 100
    else if esSubcadena "email" nombre || esSubcadena "correo" nombre then
      nn.foldl (fun acc v =>
        if !esEmailValido ((valorStr v).trim) then acc - 25 else acc) 100
    else if esSubcadena "sede" nombre || esSubcadena "institucion" nombre then
      nn.foldl (fun acc v =>
        let vs := (valorStr v).trim
        if vs.length < 3 || esSubcadena "??" vs || esSubcadena "@@" vs then acc - 30 else acc) 100
    else 100
  let conTexto : ℚ :=
    if esObjeto c then
      nn.foldl (fun acc v =>
        let vs := valorStr v
        let acc1 := if esSubcadena "??" vs || esSubcadena "@@" vs || esSubcadena "##" vs then acc - 15 else acc
        if 200 < vs.length then acc1 - 10 else acc1) base
    else base
  max 0 conTexto

/-- Sheet accuracy before the severe-pattern penalty
(`analizador.py:245`): `np.mean` of all appended per-column scores. -/
def exactitudHoja (pdtd : String → Option ℚ) (h : Hoja) : ℚ :=
  let scores := h.columnas.map (colScoreExactitud pdtd)
  if scores.isEmpty then 50 else scores.sum / (scores.length : ℚ)

/-- Row `i` of the sheet, as the list of its cells in column order. -/
def fila (h : Hoja) (i : Nat) : List Valor :=
  h.columnas.map (fun c => c.valores.getD i Valor.nulo)

/-- All rows of the sheet (`df` viewed row-wise). -/
def filas (h : Hoja) : List (List Valor) := (List.range h.nfilas).map (fila h)

/-- `len(df.drop_duplicates())`: the number of distinct rows
(pandas treats two all-`NaN`-equal rows as duplicates, as does `Valor`
equality). -/
def filasUnicas (h : Hoja) : Nat := (filas h).dedup.length

/-- First column whose lower-cased name contains `campo` as a substring
(`analizador.py:257-262` and the analogous loops in the detector). -/
def buscarColumna (h : Hoja) (campo : String) : Option Columna :=
  h.columnas.find? (fun c => esSubcadena campo c.nombre.toLower)

/-- The fixed candidate key fields (`analizador.py:255` and `:522`). -/
def camposClave : List String := ["documento", "id_estudiante", "email"]

/-- Contribution of one candidate key field to key-field uniqueness
(`analizador.py:264-269`): percentage of distinct non-null values, or the
neutral 100 when the column is absent or has no non-null value. -/
def aporteCampoClave (h : Hoja) (campo : String) : ℚ :=
  match buscarColumna h campo with
  | none => 100
  | some c =>
      let vc := noNulos c.valores
      if vc.isEmpty then 100
      else ((vc.dedup.length : ℚ) / (vc.length : ℚ)) * 100

/-- `unicidad_campos_clave`: 100 lowered by each found key field. -/
def unicidadCamposClave (h : Hoja) : ℚ :=
  camposClave.foldl (fun acc campo => min acc (aporteCampoClave h campo)) 100

/-- Sheet uniqueness before the severe-pattern penalty
(`analizador.py:248-273`). -/
def unicidadBase (h : Hoja) : ℚ :=
  if 0 < h.nfilas then
    min (((filasUnicas h : ℚ) / (h.nfilas : ℚ)) * 100) (unicidadCamposClave h)
  else 100

/-- Date-format bucket of one value (`analizador.py:291-300`): `/` wins
over `-`, then the literal `hoy`, else `otro`. -/
def formatoFecha (s : String) : String :=
  let v := s.trim
  if esSubcadena "/" v then "dd/mm/yyyy"
  else if esSubcadena "-" v then "yyyy-mm-dd"
  else if v.toLower = "hoy" then "texto"
  else "otro"

/-- Per-column consistency score (`analizador.py:278-331`).  Non-object
columns keep 100; deductions otherwise accumulate from 100, floored at 0. -/
def colScoreConsistencia (c : Columna) : ℚ :=
  let nombre := c.nombre.toLower
  let vstr := (noNulos c.valores).map valorStr
  let d1 : ℚ :=
    if esObjeto c then
      if esSubcadena "fecha" nombre || esSubcadena "periodo" nombre then
        if 1 < (vstr.map formatoFecha).dedup.length then 30 else 0
      else if esSubcadena "codigo" nombre || nombre.startsWith "id" then
        if 2 < ((vstr.map (fun v => v.trim.length)).dedup.length) then 25 else 0
      else 0
    else 0
  let d2 : ℚ :=
    if esObjeto c && 1 < vstr.length then
      let mayus := (vstr.filter pyIsUpper).length
      let minus := (vstr.filter pyIsLower).length
      if 0 < mayus && 0 < minus &&
          ((1/5 : ℚ) < ((min mayus minus : Nat) : ℚ) / (vstr.length : ℚ)) then 25 else 0
    else 0
  let d3 : ℚ :=
    if esObjeto c && 1 < vstr.length then
      let conEspacios := (vstr.filter (fun v => v ≠ v.trim)).length
      if (vstr.length : ℚ) * (1/10) < (conEspacios : ℚ) then 20 else 0
    else 0
  let d4 : ℚ :=
    if esObjeto c && 1 < vstr.length then
      let conEspeciales := (vstr.filter (fun v =>
        esSubcadena "@" v || esSubcadena "#" v || esSubcadena "$" v || esSubcadena "%" v)).length
      if 0 < conEspeciales && conEspeciales < vstr.length then 15 else 0
    else 0
  max 0 (100 - d1 - d2 - d3 - d4)

/-- Sheet consistency before the severe-pattern penalty
(`analizador.py:276-333`): mean of the scores of columns having at least
one non-null value (others are skipped by the `continue`), or 50 when no
column qualifies. -/
def consistenciaHoja (h : Hoja) : ℚ :=
  let scores := (h.columnas.filter (fun c => !(noNulos c.valores).isEmpty)).map colScoreConsistencia
  if scores.isEmpty then 50 else scores.sum / (scores.length : ℚ)

/-- Whether one non-null cell counts as a severe pattern match
(`analizador.py:339-348`): the garbled tokens, the literal `hoy` in a
date-named column, or an absurdly long digit run. -/
def valorGrave (nombreCol : String) (v : Valor) : Bool :=
  let vs := (valorStr v).trim
  if esSubcadena "bUD" vs || esSubcadena "j025" vs || esSubcadena "x025" vs || esSubcadena "n025" vs then
    true
  else if vs = "hoy" && esSubcadena "fecha" nombreCol.toLower then true
  else esSubcadena "999999999999999" vs

/-- `problemas_graves`: total severe pattern matches over all cells. -/
def problemasGraves (h : Hoja) : Nat :=
  (h.columnas.map (fun c => ((noNulos c.valores).filter (valorGrave c.nombre)).length)).sum

/-- `factor_penalizacion = min(0.5, problemas_graves / (len(df) * 0.1))`
(`analizador.py:352`). -/
def factorPenalizacion (h : Hoja) : ℚ :=
  min (1/2) ((problemasGraves h : ℚ) / ((h.nfilas : ℚ) * (1/10)))

/-- The final clamp of each metric to `[0, 100]` (`analizador.py:366-367`). -/
def clamp0100 (x : ℚ) : ℚ := max 0 (min 100 x)

/-- `_calcular_metricas_calidad_hoja` (`analizador.py:129-369`): an empty
sheet keeps the initial 50s; otherwise the four base metrics, then the
severe-pattern penalty multiplying all four when any match exists, then
the clamp. -/
def metricasCalidadHoja (pdtd : String → Option ℚ) (h : Hoja) : Metricas :=
  if h.nfilas = 0 || h.columnas.isEmpty then ⟨50, 50, 50, 50⟩
  else
    let base : Metricas :=
      ⟨completitudHoja h, exactitudHoja pdtd h, unicidadBase h, consistenciaHoja h⟩
    let conPen : Metricas :=
      if 0 < problemasGraves h then
        let f := factorPenalizacion h
        ⟨base.completitud * (1 - f), base.exactitud * (1 - f),
         base.unicidad * (1 - f), base.consistencia * (1 - f)⟩
      else base
    ⟨clamp0100 conPen.completitud, clamp0100 conPen.exactitud,
     clamp0100 conPen.unicidad, clamp0100 conPen.consistencia⟩

/-- Severity of a detected problem. -/
inductive Severidad
  | alta
  | media
  | baja
  deriving DecidableEq

/-- One example attached to a ProblemRecord: the row index, the offending
content, and an optional extra field (the suggested correction for typo
examples, the length for phone examples). -/
structure Ejemplo where
  filaIdx : Nat
  contenido : String
  extra : String := ""
  deriving DecidableEq

/-- A ProblemRecord.  The presentational `descripcion` f-string is
omitted; `tipo`, `severidad`, `columna`, the numeric `valor` and the
truncated `ejemplos` list are kept. -/
structure Problema where
  tipo : String
  severidad : Severidad
  columna : Option String := none
  valor : ℚ := 0
  ejemplos : List Ejemplo := []
  deriving DecidableEq

/-- Cell classification used by detector rule 1 (`analizador.py:406-415`):
null, or a non-null whose `str` strips to the empty string, or strips to
one of the *case-sensitive* placeholders `??`, `N/A`, `na`, `null`. -/
def celdaProblematicaDetector (v : Valor) : Bool :=
  match v with
  | .nulo => true
  | _ =>
      let vs := (valorStr v).trim
      vs = "" || vs = "??" || vs = "N/A" || vs = "na" || vs = "null"

/-- Rule 1, missing/invalid data per column (`analizador.py:402-433`). -/
def reglaDatosFaltantes (h : Hoja) : List Problema :=
  if 0 < h.nfilas then
    h.columnas.filterMap (fun c =>
      let totalProb := (c.valores.filter celdaProblematicaDetector).length
      if 0 < totalProb then
        let pct : ℚ := ((totalProb : ℚ) / (h.nfilas : ℚ)) * 100
        if 10 < pct then
          some { tipo := "datos_faltantes_o_invalidos",
                 severidad := if 30 < pct then .alta else .media,
                 columna := some c.nombre, valor := pct }
        else none
      else none)
  else []

/-- The substitution dictionary of rule 2 (`analizador.py:437-448`), in
insertion order. -/
def patronesError : List (String × String) :=
  [("bUD", "IUD"), ("j025-1", "2025-1"), ("x025-1", "2025-1"), ("n025-1", "2025-1"),
   ("i025-1", "2025-1"), ("hoy", "fecha específica"), ("tISNEROS", "CISNEROS"),
   ("µ", "A"), ("¢", "o"), ("‚", "e")]

/-- All typographical-error matches (`analizador.py:450-462`): every
(column, row, pattern) hit, columns outermost, with the suggested
correction `valor_str.replace(patron, correccion)`. -/
def ejemplosTipograficos (h : Hoja) : List Ejemplo :=
  h.columnas.flatMap (fun c =>
    c.valores.enum.flatMap (fun p =>
      if esNulo p.2 then [] else
      let vs := valorStr p.2
      patronesError.filterMap (fun pc =>
        if esSubcadena pc.1 vs then some ⟨p.1, vs, vs.replace pc.1 pc.2⟩ else none)))

/-- Rule 2, typographical errors (`analizador.py:464-471`): at most one
aggregate record, severity alta, first 5 examples. -/
def reglaTipograficos (h : Hoja) : List Problema :=
  let ejs := ejemplosTipograficos h
  if ejs.isEmpty then []
  else [{ tipo := "errores_tipograficos", severidad := .alta,
          valor := (ejs.length : ℚ), ejemplos := ejs.take 5 }]

/-- Rule 3, anomalous phone length (`analizador.py:474-495`): one record
per phone/mobile-named column with flagged values, severity media, first
3 examples. -/
def reglaTelefonos (h : Hoja) : List Problema :=
  h.columnas.filterMap (fun c =>
    if esSubcadena "telefono" c.nombre.toLower || esSubcadena "celular" c.nombre.toLower then
      let anormales := c.valores.enum.filterMap (fun p =>
        if esNulo p.2 then none else
        let vs := (valorStr p.2).trim
        if 12 < vs.length || vs.length < 7 then
          some (⟨p.1, vs, toString vs.length⟩ : Ejemplo)
        else none)
      if anormales.isEmpty then none
      else some { tipo := "longitud_telefono_anormal", severidad := .media,
                  columna := some c.nombre, valor := (anormales.length : ℚ),
                  ejemplos := anormales.take 3 }
    else none)

/-- Underscore-to-space normalization used by rule 4. -/
def normalizaGuiones (s : String) : String := s.replace "_" " "

/-- Rule 4, missing mandatory fields (`analizador.py:497-519`): for each
expected-mandatory name, the first column matching after normalizing
underscores; a record (severity alta) when any null/empty value exists. -/
def reglaCamposObligatorios (h : Hoja) : List Problema :=
  ["codigo programa", "codigo_programa", "id_estudiante"].filterMap (fun campo =>
    match h.columnas.find? (fun col =>
        esSubcadena (normalizaGuiones campo.toLower) (normalizaGuiones col.nombre.toLower)) with
    | none => none
    | some col =>
        let faltantes := (col.valores.filter
          (fun v => esNulo v || (valorStr v).trim = "")).length
        if 0 < faltantes then
          some { tipo := "campo_obligatorio_faltante", severidad := .alta,
                 columna := some col.nombre, valor := (faltantes : ℚ) }
        else none)

/-- Rule 5, duplicate key values (`analizador.py:521-541`):
`duplicated().sum()` is the non-null count minus the distinct count. -/
def reglaDuplicadosUnicos (h : Hoja) : List Problema :=
  camposClave.filterMap (fun campo =>
    match buscarColumna h campo with
    | none => none
    | some col =>
        let vv := noNulos col.valores
        if vv.isEmpty then none
        else
          let dups := vv.length - vv.dedup.length
          if 0 < dups then
            some { tipo := "duplicados_en_campo_unico", severidad := .alta,
                   columna := some col.nombre, valor := (dups : ℚ) }
          else none)

/-- Rule 6, improbable ages (`analizador.py:543-577`): the first column
named with both `fecha` and `nacimiento`; each non-null value parsed by
`pdtd`, age in years as `(ahora − t) / 365.25` with both timestamps in
days (the integer truncation of `.days` is absorbed into the ℚ timestamp
abstraction); flagged outside `[15, 80]`; one record (severity media)
with the first 3 examples. -/
def reglaEdades (pdtd : String → Option ℚ) (ahora : ℚ) (h : Hoja) : List Problema :=
  match h.columnas.find? (fun c =>
      esSubcadena "fecha" c.nombre.toLower && esSubcadena "nacimiento" c.nombre.toLower) with
  | none => []
  | some col =>
      let imposibles := col.valores.enum.filterMap (fun p =>
        if esNulo p.2 then none else
        match pdtd (valorStr p.2) with
        | none => none
        | some t =>
            let edad := (ahora - t) / (1461/4 : ℚ)
            if edad < 15 || 80 < edad then some (⟨p.1, valorStr p.2, ""⟩ : Ejemplo) else none)
      if imposibles.isEmpty then []
      else [{ tipo := "edades_improbables", severidad := .media, columna := some col.nombre,
              valor := (imposibles.length : ℚ), ejemplos := imposibles.take 3 }]

/-- Rule 7, malformed emails (`analizador.py:579-607`): the first
email/correo-named column; one record (severity media) with the first 5
failing values. -/
def reglaEmails (h : Hoja) : List Problema :=
  match h.columnas.find? (fun c =>
      esSubcadena "email" c.nombre.toLower || esSubcadena "correo" c.nombre.toLower) with
  | none => []
  | some col =>
      let invalidos := col.valores.enum.filterMap (fun p =>
        if esNulo p.2 then none else
        let vs := (valorStr p.2).trim
        if esEmailValido vs then none else some (⟨p.1, vs, ""⟩ : Ejemplo))
      if invalidos.isEmpty then []
      else [{ tipo := "emails_malformados", severidad := .media, columna := some col.nombre,
              valor := (invalidos.length : ℚ), ejemplos := invalidos.take 5 }]

/-- `df.isnull().all(axis=1).sum()`: rows with every cell null. -/
def cuentaFilasVacias (h : Hoja) : Nat :=
  ((filas h).filter (fun f => f.all esNulo)).length

/-- Rows whose non-null cells number at most 2 (`analizador.py:614-617`). -/
def cuentaFilasCasiVacias (h : Hoja) : Nat :=
  ((filas h).filter (fun f => (f.filter (fun v => !esNulo v)).length ≤ 2)).length

/-- Rule 8, empty and near-empty rows (`analizador.py:609-633`). -/
def reglaFilasVacias (h : Hoja) : List Problema :=
  if 0 < h.nfilas then
    (if 0 < cuentaFilasVacias h then
      [{ tipo := "filas_vacias", severidad := Severidad.media, valor := (cuentaFilasVacias h : ℚ) }]
     else []) ++
    (if 0 < cuentaFilasCasiVacias h then
      [{ tipo := "filas_casi_vacias", severidad := Severidad.media,
         valor := (cuentaFilasCasiVacias h : ℚ) }]
     else [])
  else []

/-- `_detectar_problemas_hoja` (`analizador.py:397-642`): the eight rules
evaluated independently, appended in source order. -/
def detectarProblemasHoja (pdtd : String → Option ℚ) (ahora : ℚ) (h : Hoja) : List Problema :=
  reglaDatosFaltantes h ++ reglaTipograficos h ++ reglaTelefonos h ++
  reglaCamposObligatorios h ++ reglaDuplicadosUnicos h ++
  reglaEdades pdtd ahora h ++ reglaEmails h ++ reglaFilasVacias h

/-- The record appended by the detector's exception handler
(`analizador.py:635-640`). -/
def problemaErrorAnalisis : Problema :=
  { tipo := "error_analisis", severidad := .alta }

/-- The fixed fallback metric tuple used on internal failure
(`analizador.py:71-76`, `:120-125`, `:358-363`, `:374-378`). -/
def metricasFallback : Metricas := ⟨30, 25, 40, 35⟩

/-- The per-sheet analysis record (`analizador.py:82-91`), restricted to
the claim-relevant fields. -/
structure AnalisisHoja where
  nombre : String
  filasDim : Nat
  columnasDim : Nat
  error : Bool
  metricasCalidad : Metricas
  problemas : List Problema
  deriving DecidableEq

/-- `_analizar_hoja_individual` (`analizador.py:80-127`).  The internal
exception of the `try` block is modelled by the explicit flag `falla`:
when it is set, the `except` branch runs — dimensions are kept, the
metrics become the fallback tuple, an error is recorded, and the problem
list stays as initialized (empty). -/
def analizarHojaIndividual (pdtd : String → Option ℚ) (ahora : ℚ)
    (falla : Bool) (nombre : String) (h : Hoja) : AnalisisHoja :=
  if falla then
    { nombre := nombre, filasDim := h.nfilas, columnasDim := h.columnas.length,
      error := true, metricasCalidad := metricasFallback, problemas := [] }
  else
    { nombre := nombre, filasDim := h.nfilas, columnasDim := h.columnas.length,
      error := false, metricasCalidad := metricasCalidadHoja pdtd h,
      problemas := detectarProblemasHoja pdtd ahora h }

/-- `_calcular_metricas_calidad_detalladas` (`analizador.py:371-395`):
the mean, per dimension, over the sheets that have metrics and no error;
the fallback tuple when no sheet qualifies. -/
def metricasDetalladas (analisis : List AnalisisHoja) : Metricas :=
  let ok := (analisis.filter (fun a => !a.error)).map (fun a => a.metricasCalidad)
  if ok.isEmpty then metricasFallback
  else
    { completitud := ((ok.map Metricas.completitud).sum) / (ok.length : ℚ),
      exactitud := ((ok.map Metricas.exactitud).sum) / (ok.length : ℚ),
      unicidad := ((ok.map Metricas.unicidad).sum) / (ok.length : ℚ),
      consistencia := ((ok.map Metricas.consistencia).sum) / (ok.length : ℚ) }

/-- The global summary (`analizador.py:669-708`), claim-relevant fields. -/
structure Resumen where
  totalHojas : Nat
  totalFilas : Nat
  totalColumnas : Nat
  totalProblemas : Nat
  altas : Nat
  medias : Nat
  bajas : Nat
  calidadPromedio : ℚ
  deriving DecidableEq

/-- Number of problems of a given severity in a list. -/
def cuentaSeveridad (s : Severidad) (ps : List Problema) : Nat :=
  (ps.filter (fun p => p.severidad = s)).length

/-- `_generar_resumen_general` (`analizador.py:669-708`): sums over the
sheets without error; the stricter average-quality formula when at least
one sheet was analyzed. -/
def resumenGeneral (analisis : List AnalisisHoja) : Resumen :=
  let ok := analisis.filter (fun a => !a.error)
  let altas := (ok.map (fun a => cuentaSeveridad .alta a.problemas)).sum
  let medias := (ok.map (fun a => cuentaSeveridad .media a.problemas)).sum
  let bajas := (ok.map (fun a => cuentaSeveridad .baja a.problemas)).sum
  { totalHojas := analisis.length,
    totalFilas := (ok.map (fun a => a.filasDim)).sum,
    totalColumnas := (ok.map (fun a => a.columnasDim)).sum,
    totalProblemas := (ok.map (fun a => a.problemas.length)).sum,
    altas := altas, medias := medias, bajas := bajas,
    calidadPromedio :=
      if 0 < analisis.length then max 0 (100 - ((altas : ℚ) * 15 + (medias : ℚ) * 8)) else 30 }

/-- `min(30, problemas_altos * 5)` (`analizador.py:736`). -/
def penalizacionCritica (altas : Nat) : ℚ := min 30 ((altas : ℚ) * 5)

/-- `_calcular_puntuacion_calidad` (`analizador.py:710-744`): the
weighted sum 0.30/0.35/0.15/0.20, the multiplicative critical-problem
penalty applied only when some alta problem exists, and the clamp. -/
def puntuacionCalidad (m : Metricas) (altas : Nat) : ℚ :=
  let p := m.completitud * (3/10) + m.exactitud * (7/20) +
           m.unicidad * (3/20) + m.consistencia * (1/5)
  let p2 := if 0 < altas then p * (1 - penalizacionCritica altas / 100) else p
  max 0 (min 100 p2)

/-- One input sheet as received from the loader: its name, the loader's
`tiene_datos` flag, the internal-failure flag modelling the per-sheet
`try/except`, and the table. -/
structure EntradaHoja where
  nombre : String
  tieneDatos : Bool
  falla : Bool
  hoja : Hoja
  deriving DecidableEq

/-- The AnalysisReport (`analizador.py:34-41`), claim-relevant fields. -/
structure ResultadoAnalisis where
  porHoja : List AnalisisHoja
  resumen : Resumen
  metricas : Metricas
  puntuacion : ℚ
  deriving DecidableEq

/-- `analizar_archivo_completo` (`analizador.py:21-78`): only sheets with
`tiene_datos` are analyzed, then the summary, the aggregate metrics and
the score are derived (charts are presentational and omitted). -/
def analizarArchivoCompleto (pdtd : String → Option ℚ) (ahora : ℚ)
    (entradas : List EntradaHoja) : ResultadoAnalisis :=
  let porHoja := (entradas.filter (fun e => e.tieneDatos)).map
      (fun e => analizarHojaIndividual pdtd ahora e.falla e.nombre e.hoja)
  let resumen := resumenGeneral porHoja
  let metricas := metricasDetalladas porHoja
  ⟨porHoja, resumen, metricas, puntuacionCalidad metricas resumen.altas⟩

/-! ### Concrete inputs used by witnesses and counterexamples -/

/-- A date parser that fails on every string (all the concrete sheets
below avoid date-parsing paths, so any parser gives the same result). -/
def pdtdNone : String → Option ℚ := fun _ => none

/-- The empty sheet: zero rows and zero columns. -/
def hojaVacia : Hoja := ⟨0, []⟩

/-- A single-cell column holding the textual null `"none"`. -/
def columnaNone : Columna := ⟨"c", [Valor.texto "none"]⟩

/-- C4 counterexample sheet: a `genero` column with the invalid value
`"xx"` (per-column accuracy 70) next to a fully-null column `b`. -/
def hoja4 : Hoja := ⟨1, [⟨"genero", [Valor.texto "xx"]⟩, ⟨"b", [Valor.nulo]⟩]⟩

/-- C5 scenario sheet: a single column of 5 identical numeric values. -/
def hoja5 : Hoja := ⟨5, [⟨"valor", List.replicate 5 (Valor.numero 7)⟩]⟩

/-- C5 counterexample sheet: a single cell containing the severe typo
pattern `bUD`. -/
def hoja5c : Hoja := ⟨1, [⟨"a", [Valor.texto "bUD"]⟩]⟩

/-- C8 scenario sheet: a column named `Email` with one valid and one
malformed address. -/
def hoja8 : Hoja := ⟨2, [⟨"Email", [Valor.texto "a@b.com", Valor.texto "bad-email"]⟩]⟩

/-! ### Shared helper lemmas -/

/-- On a non-empty sheet with no severe-pattern match, the metric record
is the clamp of the four base metrics (the penalty branch is skipped). -/
theorem metricasCalidadHoja_sin_graves (pdtd : String → Option ℚ) (h : Hoja)
    (hf : h.nfilas ≠ 0) (hc : h.columnas ≠ []) (hg : problemasGraves h = 0) :
    metricasCalidadHoja pdtd h =
      ⟨clamp0100 (completitudHoja h), clamp0100 (exactitudHoja pdtd h),
       clamp0100 (unicidadBase h), clamp0100 (consistenciaHoja h)⟩ := by
  unfold metricasCalidadHoja
  simp [hf, hc, hg]

/-- The clamp is the identity on `[0, 100]`. -/
theorem clamp0100_eq_self {x : ℚ} (h0 : 0 ≤ x) (h1 : x ≤ 100) : clamp0100 x = x := by
  unfold clamp0100
  rw [min_eq_right h1, max_eq_right h0]

/-- Each candidate key field contributes a value in `[0, 100]`. -/
theorem aporteCampoClave_nonneg (h : Hoja) (campo : String) :
    0 ≤ aporteCampoClave h campo := by
  unfold aporteCampoClave
  cases buscarColumna h campo with
  | none => norm_num
  | some c =>
      dsimp only
      split
      · norm_num
      · positivity

/-- Key-field uniqueness is non-negative. -/
theorem unicidadCamposClave_nonneg (h : Hoja) : 0 ≤ unicidadCamposClave h := by
  unfold unicidadCamposClave camposClave
  simp only [List.foldl_cons, List.foldl_nil]
  exact le_min (le_min (le_min (by norm_num) (aporteCampoClave_nonneg h "documento"))
    (aporteCampoClave_nonneg h "id_estudiante")) (aporteCampoClave_nonneg h "email")

/-- There are at most as many distinct rows as rows. -/
theorem filasUnicas_le_nfilas (h : Hoja) : filasUnicas h ≤ h.nfilas := by
  unfold filasUnicas
  calc (filas h).dedup.length ≤ (filas h).length := (List.dedup_sublist _).length_le
    _ = h.nfilas := by unfold filas; rw [List.length_map, List.length_range]

/-- The pre-penalty uniqueness lies in `[0, 100]`. -/
theorem unicidadBase_mem_Icc (h : Hoja) : 0 ≤ unicidadBase h ∧ unicidadBase h ≤ 100 := by
  unfold unicidadBase
  split
  · next hpos =>
      constructor
      · exact le_min (by positivity) (unicidadCamposClave_nonneg h)
      · refine le_trans (min_le_left _ _) ?_
        have hle : (filasUnicas h : ℚ) ≤ (h.nfilas : ℚ) := by
          exact_mod_cast filasUnicas_le_nfilas h
        have hn : (0 : ℚ) < (h.nfilas : ℚ) := by exact_mod_cast hpos
        rw [div_mul_eq_mul_div, div_le_iff₀ hn]
        nlinarith
  · norm_num

/-! ### C1 -/

/-- C1, counterexample: on a sheet with zero rows and zero columns the
per-sheet metrics computation returns the initialized 50s — not 100 as
the claim states (the early return at `analizador.py:140-141` returns
`metricas` still holding the initial values of `analizador.py:133-138`). -/
theorem c1_contraejemplo :
    metricasCalidadHoja pdtdNone hojaVacia = ⟨50, 50, 50, 50⟩ ∧
    (metricasCalidadHoja pdtdNone hojaVacia).completitud ≠ 100 := by
  constructor
  · with_unfolding_all decide
  · with_unfolding_all decide

/-- C1, amended: for every sheet with zero rows or zero columns the
per-sheet metrics computation returns
completitud = exactitud = unicidad = consistencia = 50. -/
theorem c1_hoja_vacia_todo_50 (pdtd : String → Option ℚ) (h : Hoja)
    (hv : h.nfilas = 0 ∨ h.columnas = []) :
    metricasCalidadHoja pdtd h = ⟨50, 50, 50, 50⟩ := by
  unfold metricasCalidadHoja
  rcases hv with h0 | h0 <;> simp [h0]

/-- C1, witness: the amended theorem applied to the empty sheet. -/
theorem c1_hoja_vacia_todo_50_witness :
    metricasCalidadHoja pdtdNone hojaVacia = ⟨50, 50, 50, 50⟩ :=
  c1_hoja_vacia_todo_50 pdtdNone hojaVacia (Or.inl rfl)

/-! ### C2 -/

/-- C2 (code bug): the metrics engine's completeness classification
(`celdaProblematica`, from `analizador.py:151-159`) and the problem
detector's missing/invalid-data classification
(`celdaProblematicaDetector`, from `analizador.py:406-415`) disagree on
the cell `"none"`: the former strips, lower-cases and matches the
placeholder list containing `none`, the latter compares the stripped
string against the case-sensitive list `['??', 'N/A', 'na', 'null']`
which omits `none` — so the per-column problematic counts differ (1 vs
0), though both components are specified to classify identically. -/
theorem c2_clasificaciones_divergen :
    celdaProblematica (Valor.texto "none") = true ∧
    celdaProblematicaDetector (Valor.texto "none") = false ∧
    (columnaNone.valores.filter celdaProblematica).length = 1 ∧
    (columnaNone.valores.filter celdaProblematicaDetector).length = 0 := by
  refine ⟨?_, ?_, ?_, ?_⟩ <;> with_unfolding_all decide

/-! ### C4 -/

/-- The claim's accuracy formula, written from the spec's words for
comparison: the mean of per-column scores taken only over columns that
contain at least one non-null value. -/
def exactitudSegunSpec (pdtd : String → Option ℚ) (h : Hoja) : ℚ :=
  let scores := (h.columnas.filter (fun c => !(noNulos c.valores).isEmpty)).map
    (colScoreExactitud pdtd)
  if scores.isEmpty then 50 else scores.sum / (scores.length : ℚ)

/-- C4, counterexample: on the sheet with a `genero` column scoring 70
and a fully-null column, the code's sheet accuracy is 85 (the empty
column is appended with a score of 100 at `analizador.py:170-171`, not
skipped), while the claim's mean over data-carrying columns is 70. -/
theorem c4_contraejemplo :
    (metricasCalidadHoja pdtdNone hoja4).exactitud = 85 ∧
    exactitudSegunSpec pdtdNone hoja4 = 70 ∧
    (metricasCalidadHoja pdtdNone hoja4).exactitud ≠ exactitudSegunSpec pdtdNone hoja4 := by
  refine ⟨?_, ?_, ?_⟩ <;> with_unfolding_all decide

/-- C4, amended: for every non-empty sheet without severe-pattern
matches, sheet accuracy is the clamped arithmetic mean of the per-column
accuracy scores over *all* columns, where a column with no non-null
value contributes a score of 100 (counted in the mean, not skipped). -/
theorem c4_exactitud_media_todas_columnas :
    (∀ (pdtd : String → Option ℚ) (h : Hoja), h.nfilas ≠ 0 → h.columnas ≠ [] →
      problemasGraves h = 0 →
      (metricasCalidadHoja pdtd h).exactitud =
        clamp0100 ((h.columnas.map (colScoreExactitud pdtd)).sum / (h.columnas.length : ℚ))) ∧
    (∀ (pdtd : String → Option ℚ) (c : Columna), noNulos c.valores = [] →
      colScoreExactitud pdtd c = 100) := by
  constructor
  · intro pdtd h hf hc hg
    rw [metricasCalidadHoja_sin_graves pdtd h hf hc hg]
    show clamp0100 (exactitudHoja pdtd h) = _
    unfold exactitudHoja
    have hne : (h.columnas.map (colScoreExactitud pdtd)).isEmpty = false := by
      simp [hc]
    simp [hne]
  · intro pdtd c hnn
    unfold colScoreExactitud
    rw [hnn]
    simp

/-- C4, witness: the amended theorem applied to `hoja4` (both parts, the
second at the fully-null column `b`). -/
theorem c4_exactitud_media_todas_columnas_witness :
    (metricasCalidadHoja pdtdNone hoja4).exactitud =
      clamp0100 ((hoja4.columnas.map (colScoreExactitud pdtdNone)).sum /
        (hoja4.columnas.length : ℚ)) ∧
    colScoreExactitud pdtdNone ⟨"b", [Valor.nulo]⟩ = 100 :=
  ⟨c4_exactitud_media_todas_columnas.1 pdtdNone hoja4 (by decide) (by decide)
      (by with_unfolding_all decide),
   c4_exactitud_media_todas_columnas.2 pdtdNone ⟨"b", [Valor.nulo]⟩ (by decide)⟩

/-! ### C5 -/

/-- C5, counterexample: on a one-cell sheet containing the severe typo
pattern `bUD`, the code's uniqueness is 50 — the severe-pattern penalty
(`analizador.py:350-354`) multiplies the metric by 0.5 — while the
claim's formula `min(100 · distinct/total, key-field uniqueness)`
evaluates to 100. -/
theorem c5_contraejemplo :
    (metricasCalidadHoja pdtdNone hoja5c).unicidad = 50 ∧
    unicidadBase hoja5c = 100 ∧
    (metricasCalidadHoja pdtdNone hoja5c).unicidad ≠ unicidadBase hoja5c := by
  refine ⟨?_, ?_, ?_⟩ <;> with_unfolding_all decide

/-- C5, amended: for every non-empty sheet with no severe-pattern match,
uniqueness equals `min(100 × distinct_rows / total_rows,
key_field_uniqueness)` where the key-field term is 100 when no candidate
key column exists; and for the single-column sheet of 5 identical
numeric values (no severe patterns) uniqueness equals 20. -/
theorem c5_unicidad_formula :
    (∀ (pdtd : String → Option ℚ) (h : Hoja), h.nfilas ≠ 0 → h.columnas ≠ [] →
      problemasGraves h = 0 →
      (metricasCalidadHoja pdtd h).unicidad =
        min ((filasUnicas h : ℚ) / (h.nfilas : ℚ) * 100) (unicidadCamposClave h)) ∧
    (metricasCalidadHoja pdtdNone hoja5).unicidad = 20 := by
  constructor
  · intro pdtd h hf hc hg
    rw [metricasCalidadHoja_sin_graves pdtd h hf hc hg]
    show clamp0100 (unicidadBase h) = _
    obtain ⟨h0, h1⟩ := unicidadBase_mem_Icc h
    rw [clamp0100_eq_self h0 h1]
    unfold unicidadBase
    rw [if_pos (Nat.pos_of_ne_zero hf)]
  · with_unfolding_all decide

/-- C5, witness: the quantified part applied to the scenario sheet. -/
theorem c5_unicidad_formula_witness :
    (metricasCalidadHoja pdtdNone hoja5).unicidad =
      min ((filasUnicas hoja5 : ℚ) / (hoja5.nfilas : ℚ) * 100) (unicidadCamposClave hoja5) :=
  c5_unicidad_formula.1 pdtdNone hoja5 (by decide) (by decide) (by with_unfolding_all decide)

/-! ### C3 -/

/-- C3: the overall quality score equals
`clamp₍₀,₁₀₀₎((0.30·c + 0.35·e + 0.15·u + 0.20·s) · (1 − min(0.30, 0.05·n)))`
for every alta-problem count `n` (the code skips the multiplication when
`n = 0`, where the factor is 1); when the four aggregate metrics are
non-negative the score is monotonically non-increasing in `n`; and the
multiplicative penalty `penalizacionCritica n / 100` never exceeds 30%. -/
theorem c3_puntuacion_formula (c e u s : ℚ) :
    (∀ n : Nat, puntuacionCalidad ⟨c, e, u, s⟩ n =
      max 0 (min 100 ((c * (3/10) + e * (7/20) + u * (3/20) + s * (1/5)) *
        (1 - min (3/10) ((n : ℚ) * (5/100)))))) ∧
    (0 ≤ c → 0 ≤ e → 0 ≤ u → 0 ≤ s →
      ∀ n₁ n₂ : Nat, n₁ ≤ n₂ →
        puntuacionCalidad ⟨c, e, u, s⟩ n₂ ≤ puntuacionCalidad ⟨c, e, u, s⟩ n₁) ∧
    (∀ n : Nat, penalizacionCritica n / 100 ≤ 3/10) := by
  have hform : ∀ n : Nat, puntuacionCalidad ⟨c, e, u, s⟩ n =
      max 0 (min 100 ((c * (3/10) + e * (7/20) + u * (3/20) + s * (1/5)) *
        (1 - min (3/10) ((n : ℚ) * (5/100))))) := by
    intro n
    unfold puntuacionCalidad penalizacionCritica
    rcases Nat.eq_zero_or_pos n with h0 | h0
    · subst h0; norm_num
    · simp only [h0, if_pos]
      have hmins : (min (30:ℚ) ((n : ℚ) * 5)) / 100 = min (3/10) ((n : ℚ) * (5/100)) := by
        rcases le_total ((n : ℚ) * 5) 30 with hle | hle
        · rw [min_eq_right hle, min_eq_right (by nlinarith)]
          ring
        · rw [min_eq_left hle, min_eq_left (by nlinarith)]
          norm_num
      rw [hmins]
  refine ⟨hform, ?_, ?_⟩
  · intro hc he hu hs n₁ n₂ h12
    rw [hform n₁, hform n₂]
    have hbase : 0 ≤ c * (3/10) + e * (7/20) + u * (3/20) + s * (1/5) := by positivity
    have hmin : min (3/10) ((n₁ : ℚ) * (5/100)) ≤ min (3/10) ((n₂ : ℚ) * (5/100)) := by
      apply min_le_min le_rfl
      have : (n₁ : ℚ) ≤ (n₂ : ℚ) := by exact_mod_cast h12
      nlinarith
    have hfac : 1 - min (3/10) ((n₂ : ℚ) * (5/100)) ≤ 1 - min (3/10) ((n₁ : ℚ) * (5/100)) := by
      linarith
    exact max_le_max le_rfl (min_le_min le_rfl (mul_le_mul_of_nonneg_left hfac hbase))
  · intro n
    unfold penalizacionCritica
    have : min (30 : ℚ) ((n : ℚ) * 5) ≤ 30 := min_le_left _ _
    linarith

/-- C3, witness: the theorem instantiated at metrics (50, 50, 50, 50)
and alta counts 1 ≤ 2, with every hypothesis discharged concretely. -/
theorem c3_puntuacion_formula_witness :
    puntuacionCalidad ⟨50, 50, 50, 50⟩ 2 ≤ puntuacionCalidad ⟨50, 50, 50, 50⟩ 1 :=
  (c3_puntuacion_formula 50 50 50 50).2.1 (by norm_num) (by norm_num) (by norm_num)
    (by norm_num) 1 2 (by norm_num)

/-! ### C6 -/

/-- C6: a failing sheet analysis (the `except` branch of
`_analizar_hoja_individual`) yields exactly the fallback metric tuple
(30, 25, 40, 35) with the error recorded; every sheet with data is
analyzed regardless of other sheets failing (the report's per-sheet list
covers all of them); when every analyzed sheet carries an error — in
particular when none was analyzed — the aggregate metrics equal the same
fallback tuple; and the overall score is always produced from the
aggregate metrics and the alta count. -/
theorem c6_fallback_y_continuacion :
    (∀ (pdtd : String → Option ℚ) (ahora : ℚ) (nombre : String) (h : Hoja),
      (analizarHojaIndividual pdtd ahora true nombre h).metricasCalidad = metricasFallback ∧
      (analizarHojaIndividual pdtd ahora true nombre h).error = true) ∧
    (∀ (pdtd : String → Option ℚ) (ahora : ℚ) (entradas : List EntradaHoja),
      (analizarArchivoCompleto pdtd ahora entradas).porHoja =
        (entradas.filter (fun e => e.tieneDatos)).map
          (fun e => analizarHojaIndividual pdtd ahora e.falla e.nombre e.hoja)) ∧
    (∀ analisis : List AnalisisHoja, (∀ a ∈ analisis, a.error = true) →
      metricasDetalladas analisis = metricasFallback) ∧
    (∀ (pdtd : String → Option ℚ) (ahora : ℚ) (entradas : List EntradaHoja),
      (analizarArchivoCompleto pdtd ahora entradas).puntuacion =
        puntuacionCalidad (analizarArchivoCompleto pdtd ahora entradas).metricas
          (analizarArchivoCompleto pdtd ahora entradas).resumen.altas) := by
  refine ⟨?_, fun _ _ _ => rfl, ?_, fun _ _ _ => rfl⟩
  · intro pdtd ahora nombre h
    constructor <;> rfl
  · intro analisis herr
    unfold metricasDetalladas
    have hfil : analisis.filter (fun a => !a.error) = [] := by
      rw [List.filter_eq_nil_iff]
      intro a ha
      simp [herr a ha]
    rw [hfil]
    rfl

/-- C6, witness: the aggregate over a single failing sheet analysis is
the fallback tuple. -/
theorem c6_fallback_y_continuacion_witness :
    metricasDetalladas [analizarHojaIndividual pdtdNone 0 true "a" hojaVacia] =
      metricasFallback :=
  c6_fallback_y_continuacion.2.2.1 [analizarHojaIndividual pdtdNone 0 true "a" hojaVacia]
    (by with_unfolding_all decide)

/-! ### Per-rule shape lemmas for the Problem Detector -/

/-- Every rule-1 record: its kind, and severity alta or media. -/
theorem mem_reglaDatosFaltantes {h : Hoja} {p : Problema}
    (hp : p ∈ reglaDatosFaltantes h) :
    p.tipo = "datos_faltantes_o_invalidos" ∧
      (p.severidad = .alta ∨ p.severidad = .media) ∧ p.ejemplos = [] := by
  unfold reglaDatosFaltantes at hp
  split at hp
  · rw [List.mem_filterMap] at hp
    obtain ⟨c, _, hc⟩ := hp
    dsimp only at hc
    split at hc
    · split at hc
      · rw [Option.some_inj] at hc
        subst hc
        refine ⟨rfl, ?_, rfl⟩
        dsimp only
        split
        · exact Or.inl rfl
        · exact Or.inr rfl
      · exact absurd hc (by simp)
    · exact absurd hc (by simp)
  · exact absurd hp (List.not_mem_nil p)

/-- Every rule-2 record: its kind, severity alta, at most 5 examples. -/
theorem mem_reglaTipograficos {h : Hoja} {p : Problema}
    (hp : p ∈ reglaTipograficos h) :
    p.tipo = "errores_tipograficos" ∧ p.severidad = .alta ∧ p.ejemplos.length ≤ 5 := by
  unfold reglaTipograficos at hp
  dsimp only at hp
  split at hp
  · exact absurd hp (List.not_mem_nil p)
  · rw [List.mem_singleton] at hp
    subst hp
    exact ⟨rfl, rfl, List.length_take_le 5 _⟩

/-- Every rule-3 record: its kind, severity media, at most 3 examples. -/
theorem mem_reglaTelefonos {h : Hoja} {p : Problema}
    (hp : p ∈ reglaTelefonos h) :
    p.tipo = "longitud_telefono_anormal" ∧ p.severidad = .media ∧ p.ejemplos.length ≤ 3 := by
  unfold reglaTelefonos at hp
  rw [List.mem_filterMap] at hp
  obtain ⟨c, _, hc⟩ := hp
  dsimp only at hc
  split at hc
  · split at hc
    · exact absurd hc (by simp)
    · rw [Option.some_inj] at hc
      subst hc
      exact ⟨rfl, rfl, List.length_take_le 3 _⟩
  · exact absurd hc (by simp)

/-- Every rule-4 record: its kind, severity alta. -/
theorem mem_reglaCamposObligatorios {h : Hoja} {p : Problema}
    (hp : p ∈ reglaCamposObligatorios h) :
    p.tipo = "campo_obligatorio_faltante" ∧ p.severidad = .alta ∧ p.ejemplos = [] := by
  unfold reglaCamposObligatorios at hp
  rw [List.mem_filterMap] at hp
  obtain ⟨campo, _, hc⟩ := hp
  dsimp only at hc
  split at hc
  · exact absurd hc (by simp)
  · split at hc
    · rw [Option.some_inj] at hc
      subst hc
      exact ⟨rfl, rfl, rfl⟩
    · exact absurd hc (by simp)

/-- Every rule-5 record: its kind, severity alta. -/
theorem mem_reglaDuplicadosUnicos {h : Hoja} {p : Problema}
    (hp : p ∈ reglaDuplicadosUnicos h) :
    p.tipo = "duplicados_en_campo_unico" ∧ p.severidad = .alta ∧ p.ejemplos = [] := by
  unfold reglaDuplicadosUnicos at hp
  rw [List.mem_filterMap] at hp
  obtain ⟨campo, _, hc⟩ := hp
  dsimp only at hc
  split at hc
  · exact absurd hc (by simp)
  · split at hc
    · exact absurd hc (by simp)
    · split at hc
      · rw [Option.some_inj] at hc
        subst hc
        exact ⟨rfl, rfl, rfl⟩
      · exact absurd hc (by simp)

/-- Every rule-6 record: its kind, severity media, at most 3 examples. -/
theorem mem_reglaEdades {pdtd : String → Option ℚ} {a : ℚ} {h : Hoja} {p : Problema}
    (hp : p ∈ reglaEdades pdtd a h) :
    p.tipo = "edades_improbables" ∧ p.severidad = .media ∧ p.ejemplos.length ≤ 3 := by
  unfold reglaEdades at hp
  split at hp
  · exact absurd hp (List.not_mem_nil p)
  · dsimp only at hp
    split at hp
    · exact absurd hp (List.not_mem_nil p)
    · rw [List.mem_singleton] at hp
      subst hp
      exact ⟨rfl, rfl, List.length_take_le 3 _⟩

/-- Every rule-7 record: its kind, severity media, at most 5 examples. -/
theorem mem_reglaEmails {h : Hoja} {p : Problema}
    (hp : p ∈ reglaEmails h) :
    p.tipo = "emails_malformados" ∧ p.severidad = .media ∧ p.ejemplos.length ≤ 5 := by
  unfold reglaEmails at hp
  split at hp
  · exact absurd hp (List.not_mem_nil p)
  · dsimp only at hp
    split at hp
    · exact absurd hp (List.not_mem_nil p)
    · rw [List.mem_singleton] at hp
      subst hp
      exact ⟨rfl, rfl, List.length_take_le 5 _⟩

/-- Every rule-8 record: one of the two row kinds, severity media. -/
theorem mem_reglaFilasVacias {h : Hoja} {p : Problema}
    (hp : p ∈ reglaFilasVacias h) :
    (p.tipo = "filas_vacias" ∨ p.tipo = "filas_casi_vacias") ∧
      p.severidad = .media ∧ p.ejemplos = [] := by
  unfold reglaFilasVacias at hp
  by_cases h0 : 0 < h.nfilas
  · rw [if_pos h0, List.mem_append] at hp
    rcases hp with hp | hp
    · by_cases h1 : 0 < cuentaFilasVacias h
      · rw [if_pos h1, List.mem_singleton] at hp
        subst hp
        exact ⟨Or.inl rfl, rfl, rfl⟩
      · rw [if_neg h1] at hp
        exact absurd hp (List.not_mem_nil p)
    · by_cases h2 : 0 < cuentaFilasCasiVacias h
      · rw [if_pos h2, List.mem_singleton] at hp
        subst hp
        exact ⟨Or.inr rfl, rfl, rfl⟩
      · rw [if_neg h2] at hp
        exact absurd hp (List.not_mem_nil p)
  · rw [if_neg h0] at hp
    exact absurd hp (List.not_mem_nil p)

/-- Every record the detector emits has severity alta or media. -/
theorem severidad_detector {pdtd : String → Option ℚ} {a : ℚ} {h : Hoja} {p : Problema}
    (hp : p ∈ detectarProblemasHoja pdtd a h) :
    p.severidad = .alta ∨ p.severidad = .media := by
  unfold detectarProblemasHoja at hp
  simp only [List.mem_append] at hp
  rcases hp with ((((((hp | hp) | hp) | hp) | hp) | hp) | hp) | hp
  · exact (mem_reglaDatosFaltantes hp).2.1
  · exact Or.inl (mem_reglaTipograficos hp).2.1
  · exact Or.inr (mem_reglaTelefonos hp).2.1
  · exact Or.inl (mem_reglaCamposObligatorios hp).2.1
  · exact Or.inl (mem_reglaDuplicadosUnicos hp).2.1
  · exact Or.inr (mem_reglaEdades hp).2.1
  · exact Or.inr (mem_reglaEmails hp).2.1
  · exact Or.inr (mem_reglaFilasVacias hp).2.1

/-! ### C7 -/

/-- C7 counterexample column: the severe pattern `bUD`, nineteen normal
values, and one null. -/
def col7a : List Valor :=
  [Valor.texto "bUD"] ++ List.replicate 19 (Valor.texto "x") ++ [Valor.nulo]

/-- C7 counterexample sheet: 21 rows, one `documento` key column. -/
def hoja7a : Hoja := ⟨21, [⟨"documento", col7a⟩]⟩

/-- `hoja7a` with its last (null) row duplicated. -/
def hoja7b : Hoja := ⟨22, [⟨"documento", col7a ++ [Valor.nulo]⟩]⟩

/-- Append one row (one value per column, in column order) to a sheet. -/
def agregaFila (h : Hoja) (r : List Valor) : Hoja :=
  ⟨h.nfilas + 1, h.columnas.zipWith (fun c v => ⟨c.nombre, c.valores ++ [v]⟩) r⟩

/-- Zipping a list with its own image under `g` is a map. -/
theorem zipWith_map_self {α β γ : Type} (f : α → β → γ) (g : α → β) :
    ∀ l : List α, List.zipWith f l (l.map g) = l.map (fun a => f a (g a))
  | [] => rfl
  | a :: l => by
      simp only [List.map_cons, List.zipWith_cons_cons, zipWith_map_self f g l]

/-- Appending a copy of row `i` appends, per column, the cell that column
holds at row `i`. -/
theorem agregaFila_columnas (h : Hoja) (i : Nat) :
    (agregaFila h (fila h i)).columnas =
      h.columnas.map (fun c =>
        ⟨c.nombre, c.valores ++ [c.valores.getD i Valor.nulo]⟩) := by
  show List.zipWith _ h.columnas (fila h i) = _
  unfold fila
  exact zipWith_map_self _ _ h.columnas

/-- Old rows are unchanged by the append. -/
theorem fila_agregaFila_lt (h : Hoja) (i j : Nat) (hwf : h.wf) (hj : j < h.nfilas) :
    fila (agregaFila h (fila h i)) j = fila h j := by
  show ((agregaFila h (fila h i)).columnas).map (fun c => c.valores.getD j Valor.nulo) = fila h j
  rw [agregaFila_columnas, List.map_map]
  unfold fila
  apply List.map_congr_left
  intro c hc
  simp only [Function.comp_apply]
  exact List.getD_append _ _ _ _ (by rw [hwf c hc]; exact hj)

/-- The appended row is row `i` of the original sheet. -/
theorem fila_agregaFila_last (h : Hoja) (i : Nat) (hwf : h.wf) :
    fila (agregaFila h (fila h i)) h.nfilas = fila h i := by
  show ((agregaFila h (fila h i)).columnas).map (fun c => c.valores.getD h.nfilas Valor.nulo) =
    fila h i
  rw [agregaFila_columnas, List.map_map]
  unfold fila
  apply List.map_congr_left
  intro c hc
  simp only [Function.comp_apply]
  rw [List.getD_append_right _ _ _ _ (le_of_eq (hwf c hc)), hwf c hc]
  simp

/-- Row-wise, the append is literally a row append. -/
theorem filas_agregaFila (h : Hoja) (i : Nat) (hwf : h.wf) :
    filas (agregaFila h (fila h i)) = filas h ++ [fila h i] := by
  unfold filas
  show (List.range (h.nfilas + 1)).map _ = _
  rw [List.range_succ, List.map_append, List.map_singleton]
  congr 1
  · apply List.map_congr_left
    intro j hj
    exact fila_agregaFila_lt h i j hwf (List.mem_range.mp hj)
  · rw [fila_agregaFila_last h i hwf]

/-- Appending an element already present does not change the number of
distinct elements. -/
theorem dedup_length_append_mem {α : Type} [DecidableEq α] {l : List α} {a : α}
    (ha : a ∈ l) : (l ++ [a]).dedup.length = l.dedup.length := by
  rw [← List.card_toFinset, ← List.card_toFinset]
  congr 1
  rw [List.toFinset_append]
  rw [Finset.union_eq_left]
  simp [ha]

/-- Row `i` is among the sheet's rows. -/
theorem fila_mem_filas (h : Hoja) (i : Nat) (hi : i < h.nfilas) : fila h i ∈ filas h := by
  unfold filas
  exact List.mem_map_of_mem _ (List.mem_range.mpr hi)

/-- Duplicating a row keeps the distinct-row count. -/
theorem filasUnicas_agregaFila (h : Hoja) (i : Nat) (hwf : h.wf) (hi : i < h.nfilas) :
    filasUnicas (agregaFila h (fila h i)) = filasUnicas h := by
  unfold filasUnicas
  rw [filas_agregaFila h i hwf]
  exact dedup_length_append_mem (fila_mem_filas h i hi)

/-- Key-column lookup commutes with the row append (names unchanged). -/
theorem buscarColumna_agregaFila (h : Hoja) (i : Nat) (campo : String) :
    buscarColumna (agregaFila h (fila h i)) campo =
      (buscarColumna h campo).map (fun c =>
        ⟨c.nombre, c.valores ++ [c.valores.getD i Valor.nulo]⟩) := by
  unfold buscarColumna
  rw [agregaFila_columnas, List.find?_map]
  rfl

/-- Duplicating a row never raises a key field's uniqueness
contribution. -/
theorem aporteCampoClave_agregaFila (h : Hoja) (i : Nat) (hwf : h.wf)
    (hi : i < h.nfilas) (campo : String) :
    aporteCampoClave (agregaFila h (fila h i)) campo ≤ aporteCampoClave h campo := by
  unfold aporteCampoClave
  rw [buscarColumna_agregaFila]
  cases hfind : buscarColumna h campo with
  | none => simp
  | some c =>
      simp only [Option.map_some']
      have hcmem : c ∈ h.columnas := List.mem_of_find?_eq_some hfind
      have hlen : c.valores.length = h.nfilas := hwf c hcmem
      have hxval : c.valores.getD i Valor.nulo ∈ c.valores := by
        rw [List.getD_eq_getElem _ _ (hlen ▸ hi)]
        exact List.getElem_mem _
      set x := c.valores.getD i Valor.nulo with hxdef
      by_cases hnx : esNulo x = true
      · have heq : noNulos (c.valores ++ [x]) = noNulos c.valores := by
          unfold noNulos
          rw [List.filter_append]
          have hfx : List.filter (fun v => !esNulo v) [x] = [] := by
            simp [hnx]
          rw [hfx, List.append_nil]
        rw [heq]
      · have hxmem : x ∈ noNulos c.valores := by
          unfold noNulos
          rw [List.mem_filter]
          exact ⟨hxval, by simp [hnx]⟩
        have happ : noNulos (c.valores ++ [x]) = noNulos c.valores ++ [x] := by
          unfold noNulos
          rw [List.filter_append]
          have hfx : List.filter (fun v => !esNulo v) [x] = [x] := by
            simp [hnx]
          rw [hfx]
        rw [happ]
        have hm : 0 < (noNulos c.valores).length := List.length_pos_of_mem hxmem
        have hne2 : (noNulos c.valores).isEmpty = false := by
          rw [List.isEmpty_eq_false]
          exact List.ne_nil_of_mem hxmem
        have hne1 : (noNulos c.valores ++ [x]).isEmpty = false := by
          rw [List.isEmpty_eq_false]
          exact List.ne_nil_of_mem (List.mem_append_left _ hxmem)
        rw [hne1, hne2]
        simp only [Bool.false_eq_true, if_false]
        rw [dedup_length_append_mem hxmem, List.length_append, List.length_singleton]
        have hdd : (0:ℚ) ≤ ((noNulos c.valores).dedup.length : ℚ) := by positivity
        have hm1 : (0:ℚ) < ((noNulos c.valores).length : ℚ) := by exact_mod_cast hm
        have hm2 : ((noNulos c.valores).length : ℚ) ≤
            (((noNulos c.valores).length + 1 : ℕ) : ℚ) := by
          push_cast
          linarith
        gcongr

/-- Duplicating a row never raises key-field uniqueness. -/
theorem unicidadCamposClave_agregaFila (h : Hoja) (i : Nat) (hwf : h.wf)
    (hi : i < h.nfilas) :
    unicidadCamposClave (agregaFila h (fila h i)) ≤ unicidadCamposClave h := by
  unfold unicidadCamposClave camposClave
  simp only [List.foldl_cons, List.foldl_nil]
  exact min_le_min (min_le_min (min_le_min le_rfl
    (aporteCampoClave_agregaFila h i hwf hi "documento"))
    (aporteCampoClave_agregaFila h i hwf hi "id_estudiante"))
    (aporteCampoClave_agregaFila h i hwf hi "email")

/-- Duplicating a row of a sheet with no severe-pattern match leaves the
severe-pattern count at zero. -/
theorem problemasGraves_agregaFila (h : Hoja) (i : Nat) (hwf : h.wf)
    (hi : i < h.nfilas) (hg : problemasGraves h = 0) :
    problemasGraves (agregaFila h (fila h i)) = 0 := by
  unfold problemasGraves at hg ⊢
  rw [agregaFila_columnas, List.map_map]
  rw [List.sum_eq_zero_iff] at hg ⊢
  intro x hx
  rw [List.mem_map] at hx
  obtain ⟨c, hc, rfl⟩ := hx
  simp only [Function.comp_apply]
  have hcount := hg _ (List.mem_map_of_mem _ hc)
  rw [List.length_eq_zero, List.filter_eq_nil_iff] at hcount ⊢
  intro v hv
  unfold noNulos at hv
  rw [List.filter_append, List.mem_append] at hv
  rcases hv with hv | hv
  · exact hcount v hv
  · rw [List.mem_filter, List.mem_singleton] at hv
    obtain ⟨hv1, hv2⟩ := hv
    subst hv1
    apply hcount
    unfold noNulos
    rw [List.mem_filter]
    refine ⟨?_, hv2⟩
    rw [List.getD_eq_getElem _ _ ((hwf c hc) ▸ hi)]
    exact List.getElem_mem _

/-- The clamp is monotone. -/
theorem clamp0100_mono {x y : ℚ} (hxy : x ≤ y) : clamp0100 x ≤ clamp0100 y :=
  max_le_max le_rfl (min_le_min le_rfl hxy)

/-- C7, counterexample: `hoja7b` is `hoja7a` (21 rows, one `documento`
column holding the severe pattern `bUD`, 19 copies of `x` and a null)
with its last row — an exact duplicate of an existing row — appended,
yet its uniqueness metric is strictly larger (110/21 < 60/11): the extra
row dilutes the severe-pattern penalty factor
`min(0.5, graves/(rows·0.1))` faster than the uniqueness ratio drops. -/
theorem c7_contraejemplo :
    hoja7b = agregaFila hoja7a (fila hoja7a 20) ∧
    fila hoja7a 20 ∈ filas hoja7a ∧
    (metricasCalidadHoja pdtdNone hoja7a).unicidad <
      (metricasCalidadHoja pdtdNone hoja7b).unicidad := by
  refine ⟨?_, ?_, ?_⟩ <;> with_unfolding_all decide

/-- C7, amended: appending an exact duplicate of an existing row never
increases the *pre-penalty* uniqueness `min(full-row uniqueness,
key-field uniqueness)`; and on sheets with no severe-pattern match (so
the penalty factor is not in play) the final uniqueness metric itself
never increases.  (With severe patterns present the final metric can
increase, per the counterexample.) -/
theorem c7_unicidad_no_crece :
    (∀ (h : Hoja) (i : Nat), h.wf → i < h.nfilas →
      unicidadBase (agregaFila h (fila h i)) ≤ unicidadBase h) ∧
    (∀ (pdtd : String → Option ℚ) (h : Hoja) (i : Nat), h.wf → i < h.nfilas →
      h.columnas ≠ [] → problemasGraves h = 0 →
      (metricasCalidadHoja pdtd (agregaFila h (fila h i))).unicidad ≤
        (metricasCalidadHoja pdtd h).unicidad) := by
  have hbase : ∀ (h : Hoja) (i : Nat), h.wf → i < h.nfilas →
      unicidadBase (agregaFila h (fila h i)) ≤ unicidadBase h := by
    intro h i hwf hi
    have hn : 0 < h.nfilas := Nat.lt_of_le_of_lt (Nat.zero_le i) hi
    unfold unicidadBase
    rw [if_pos (show 0 < (agregaFila h (fila h i)).nfilas from Nat.succ_pos _), if_pos hn]
    apply min_le_min _ (unicidadCamposClave_agregaFila h i hwf hi)
    rw [filasUnicas_agregaFila h i hwf hi]
    have h1 : (0:ℚ) < (h.nfilas : ℚ) := by exact_mod_cast hn
    have h2 : (h.nfilas : ℚ) ≤ ((agregaFila h (fila h i)).nfilas : ℚ) := by
      show (h.nfilas : ℚ) ≤ ((h.nfilas + 1 : ℕ) : ℚ)
      push_cast
      linarith
    have h3 : (0:ℚ) ≤ (filasUnicas h : ℚ) := by positivity
    gcongr
  refine ⟨hbase, ?_⟩
  intro pdtd h i hwf hi hc hg
  have hn : h.nfilas ≠ 0 := Nat.pos_iff_ne_zero.mp (Nat.lt_of_le_of_lt (Nat.zero_le i) hi)
  have hc2 : (agregaFila h (fila h i)).columnas ≠ [] := by
    rw [agregaFila_columnas]
    simp [hc]
  rw [metricasCalidadHoja_sin_graves pdtd _ (Nat.succ_ne_zero _) hc2
        (problemasGraves_agregaFila h i hwf hi hg),
      metricasCalidadHoja_sin_graves pdtd h hn hc hg]
  exact clamp0100_mono (hbase h i hwf hi)

/-- C7, witness: both parts applied to the 5-identical-rows sheet
duplicating its first row. -/
theorem c7_unicidad_no_crece_witness :
    unicidadBase (agregaFila hoja5 (fila hoja5 0)) ≤ unicidadBase hoja5 ∧
    (metricasCalidadHoja pdtdNone (agregaFila hoja5 (fila hoja5 0))).unicidad ≤
      (metricasCalidadHoja pdtdNone hoja5).unicidad :=
  ⟨c7_unicidad_no_crece.1 hoja5 0 (by decide) (by decide),
   c7_unicidad_no_crece.2 pdtdNone hoja5 0 (by decide) (by decide) (by decide)
     (by with_unfolding_all decide)⟩

/-! ### C10 -/

/-- C10: every ProblemRecord the detector emits has severity alta or
media, never baja; the `error_analisis` record of the exception handler
has severity alta; consequently the global baja severity bucket of every
analysis run is 0. -/
theorem c10_sin_severidad_baja :
    (∀ (pdtd : String → Option ℚ) (ahora : ℚ) (h : Hoja) (p : Problema),
      p ∈ detectarProblemasHoja pdtd ahora h →
      p.severidad = Severidad.alta ∨ p.severidad = Severidad.media) ∧
    problemaErrorAnalisis.severidad = Severidad.alta ∧
    (∀ (pdtd : String → Option ℚ) (ahora : ℚ) (entradas : List EntradaHoja),
      (analizarArchivoCompleto pdtd ahora entradas).resumen.bajas = 0) := by
  refine ⟨fun pdtd ahora h p hp => severidad_detector hp, rfl, ?_⟩
  intro pdtd ahora entradas
  show (resumenGeneral _).bajas = 0
  unfold resumenGeneral
  dsimp only
  apply List.sum_eq_zero
  intro x hx
  rw [List.mem_map] at hx
  obtain ⟨a, ha, rfl⟩ := hx
  have hmem : a ∈ (entradas.filter (fun e => e.tieneDatos)).map
      (fun e => analizarHojaIndividual pdtd ahora e.falla e.nombre e.hoja) :=
    List.mem_of_mem_filter ha
  rw [List.mem_map] at hmem
  obtain ⟨e, _, rfl⟩ := hmem
  unfold cuentaSeveridad
  rw [List.length_eq_zero, List.filter_eq_nil_iff]
  intro p hp
  unfold analizarHojaIndividual at hp
  by_cases hf : e.falla = true
  · rw [if_pos hf] at hp
    exact absurd hp (List.not_mem_nil p)
  · rw [if_neg hf] at hp
    rcases severidad_detector hp with hs | hs <;> simp [hs]

/-- C10, witness: the severity disjunction applied to the
malformed-email record the detector emits on the C8 scenario sheet. -/
theorem c10_sin_severidad_baja_witness :
    (⟨"emails_malformados", .media, some "Email", 1, [⟨1, "bad-email", ""⟩]⟩ : Problema).severidad
        = Severidad.alta ∨
    (⟨"emails_malformados", .media, some "Email", 1, [⟨1, "bad-email", ""⟩]⟩ : Problema).severidad
        = Severidad.media :=
  c10_sin_severidad_baja.1 pdtdNone 0 hoja8 _ (by with_unfolding_all decide)

/-! ### C8 -/

/-- Rule 7 emits at most one record per sheet. -/
theorem reglaEmails_length_le (h : Hoja) : (reglaEmails h).length ≤ 1 := by
  unfold reglaEmails
  split
  · norm_num
  · dsimp only
    split
    · norm_num
    · norm_num

/-- Lists all of whose members have another kind contribute no
malformed-email records. -/
theorem filter_emails_nil {l : List Problema}
    (hl : ∀ p ∈ l, p.tipo ≠ "emails_malformados") :
    (l.filter (fun p => p.tipo = "emails_malformados")).length = 0 := by
  rw [List.length_eq_zero, List.filter_eq_nil_iff]
  intro p hp
  simp [hl p hp]

/-- C8: on the scenario sheet whose `Email` column holds `a@b.com` and
`bad-email`, the detector emits exactly one malformed-email record, with
severity media, affected count 1 and the single example `bad-email`; in
general the malformed-email rule fires at most once per sheet and its
record carries at most 5 examples. -/
theorem c8_regla_emails :
    ((detectarProblemasHoja pdtdNone 0 hoja8).filter
        (fun p => p.tipo = "emails_malformados") =
      [{ tipo := "emails_malformados", severidad := .media, columna := some "Email",
         valor := 1, ejemplos := [⟨1, "bad-email", ""⟩] }]) ∧
    (∀ (pdtd : String → Option ℚ) (ahora : ℚ) (h : Hoja),
      ((detectarProblemasHoja pdtd ahora h).filter
        (fun p => p.tipo = "emails_malformados")).length ≤ 1) ∧
    (∀ (pdtd : String → Option ℚ) (ahora : ℚ) (h : Hoja) (p : Problema),
      p ∈ detectarProblemasHoja pdtd ahora h → p.tipo = "emails_malformados" →
      p.ejemplos.length ≤ 5) := by
  refine ⟨by with_unfolding_all decide, ?_, ?_⟩
  · intro pdtd ahora h
    unfold detectarProblemasHoja
    simp only [List.filter_append, List.length_append]
    rw [filter_emails_nil (fun p hp => by rw [(mem_reglaDatosFaltantes hp).1]; decide),
        filter_emails_nil (fun p hp => by rw [(mem_reglaTipograficos hp).1]; decide),
        filter_emails_nil (fun p hp => by rw [(mem_reglaTelefonos hp).1]; decide),
        filter_emails_nil (fun p hp => by rw [(mem_reglaCamposObligatorios hp).1]; decide),
        filter_emails_nil (fun p hp => by rw [(mem_reglaDuplicadosUnicos hp).1]; decide),
        filter_emails_nil (fun p hp => by rw [(mem_reglaEdades hp).1]; decide),
        @filter_emails_nil (reglaFilasVacias h) (fun p hp => by
          rcases (mem_reglaFilasVacias hp).1 with h1 | h1 <;> rw [h1] <;> decide)]
    simp only [Nat.zero_add, Nat.add_zero]
    exact le_trans (List.length_filter_le _ _) (reglaEmails_length_le h)
  · intro pdtd ahora h p hp htipo
    unfold detectarProblemasHoja at hp
    simp only [List.mem_append] at hp
    rcases hp with ((((((hp | hp) | hp) | hp) | hp) | hp) | hp) | hp
    · exact absurd ((mem_reglaDatosFaltantes hp).1.symm.trans htipo) (by decide)
    · exact absurd ((mem_reglaTipograficos hp).1.symm.trans htipo) (by decide)
    · exact absurd ((mem_reglaTelefonos hp).1.symm.trans htipo) (by decide)
    · exact absurd ((mem_reglaCamposObligatorios hp).1.symm.trans htipo) (by decide)
    · exact absurd ((mem_reglaDuplicadosUnicos hp).1.symm.trans htipo) (by decide)
    · exact absurd ((mem_reglaEdades hp).1.symm.trans htipo) (by decide)
    · exact (mem_reglaEmails hp).2.2
    · rcases (mem_reglaFilasVacias hp).1 with h1 | h1 <;>
        exact absurd (h1.symm.trans htipo) (by decide)

/-- C8, witness: the example bound applied to the record the detector
emits on the scenario sheet. -/
theorem c8_regla_emails_witness :
    (⟨"emails_malformados", .media, some "Email", 1, [⟨1, "bad-email", ""⟩]⟩ : Problema).ejemplos.length ≤ 5 :=
  c8_regla_emails.2.2 pdtdNone 0 hoja8
    ⟨"emails_malformados", .media, some "Email", 1, [⟨1, "bad-email", ""⟩]⟩
    (by with_unfolding_all decide) (by decide)

/-! ### C9 -/

/-- A date parser for the C9 counterexample: only `"d0"` parses, to day 0. -/
def pdtd9 : String → Option ℚ := fun s => if s = "d0" then some 0 else none

/-- C9 counterexample sheet: a birth-date column whose single value
parses to day 0. -/
def hoja9 : Hoja := ⟨1, [⟨"fecha_nacimiento", [Valor.texto "d0"]⟩]⟩

/-- The C9 counterexample input table set. -/
def entradas9 : List EntradaHoja := [⟨"h", true, false, hoja9⟩]

/-- C9, counterexample: the analysis is *not* a function of the input
tables alone — rule 6 (`analizador.py:552`) reads the wall clock.  On the
same immutable table set, the run at day 0 flags the birth date (age 0 <
15) and the run at day 7305 (twenty years later) does not, so the two
AnalysisReports differ. -/
theorem c9_contraejemplo :
    analizarArchivoCompleto pdtd9 0 entradas9 ≠ analizarArchivoCompleto pdtd9 7305 entradas9 := by
  with_unfolding_all decide

/-- Rule 6 emits nothing when no column is named with both `fecha` and
`nacimiento`. -/
theorem reglaEdades_sin_columna {pdtd : String → Option ℚ} {a : ℚ} {h : Hoja}
    (hn : ∀ c ∈ h.columnas,
      ¬(esSubcadena "fecha" c.nombre.toLower = true ∧
        esSubcadena "nacimiento" c.nombre.toLower = true)) :
    reglaEdades pdtd a h = [] := by
  unfold reglaEdades
  have hfind : h.columnas.find? (fun c =>
      esSubcadena "fecha" c.nombre.toLower && esSubcadena "nacimiento" c.nombre.toLower) = none := by
    rw [List.find?_eq_none]
    intro c hc
    have := hn c hc
    simp only [Bool.and_eq_true]
    tauto
  rw [hfind]

/-- C9, amended: the analysis is a deterministic function of the input
tables *and the current time*; the time is consumed only by rule 6, so
whenever no sheet has a birth-date-named column (containing both `fecha`
and `nacimiento`), reports taken at any two times are identical — in
particular repeated runs on such inputs yield identical
AnalysisReports. -/
theorem c9_determinista_sin_fecha_nacimiento
    (pdtd : String → Option ℚ) (a1 a2 : ℚ) (entradas : List EntradaHoja)
    (hnb : ∀ e ∈ entradas, ∀ c ∈ e.hoja.columnas,
      ¬(esSubcadena "fecha" c.nombre.toLower = true ∧
        esSubcadena "nacimiento" c.nombre.toLower = true)) :
    analizarArchivoCompleto pdtd a1 entradas = analizarArchivoCompleto pdtd a2 entradas := by
  have hdet : ∀ hj : Hoja, (∀ c ∈ hj.columnas,
      ¬(esSubcadena "fecha" c.nombre.toLower = true ∧
        esSubcadena "nacimiento" c.nombre.toLower = true)) →
      detectarProblemasHoja pdtd a1 hj = detectarProblemasHoja pdtd a2 hj := by
    intro hj hcond
    unfold detectarProblemasHoja
    rw [reglaEdades_sin_columna hcond, reglaEdades_sin_columna hcond]
  have hmap : (entradas.filter (fun e => e.tieneDatos)).map
        (fun e => analizarHojaIndividual pdtd a1 e.falla e.nombre e.hoja) =
      (entradas.filter (fun e => e.tieneDatos)).map
        (fun e => analizarHojaIndividual pdtd a2 e.falla e.nombre e.hoja) := by
    apply List.map_congr_left
    intro e he
    have hmem : e ∈ entradas := (List.mem_filter.mp he).1
    unfold analizarHojaIndividual
    cases hf : e.falla
    · simp only [Bool.false_eq_true, if_false]
      rw [hdet e.hoja (hnb e hmem)]
    · rfl
  unfold analizarArchivoCompleto
  rw [hmap]

/-- C9, witness: the amended theorem applied to a one-sheet table set
with no birth-date column, at times 0 and 7305. -/
theorem c9_determinista_sin_fecha_nacimiento_witness :
    analizarArchivoCompleto pdtdNone 0 [⟨"h", true, false, hoja8⟩] =
      analizarArchivoCompleto pdtdNone 7305 [⟨"h", true, false, hoja8⟩] :=
  c9_determinista_sin_fecha_nacimiento pdtdNone 0 7305 [⟨"h", true, false, hoja8⟩]
    (by with_unfolding_all decide)
